import Mathlib

/-!
Verification of the CaratBridge secret-finder scan pipeline and auth gate.

The definitions below are a shallow embedding of the TypeScript sources:
* `src/app/api/monitor/route.ts` — the POST handler (actions, scanner, notifier),
* `src/middleware.ts` — the auth gate,
* `src/unnamed/part_001` — the scan variant that resolves tags from the
  `WATCH_TAGS` environment override.

JavaScript `Date` values are modelled as millisecond integers; a missing
timestamp field (`undefined`/empty string) is `Timestamp.missing`, a present
but unparseable string (JS "Invalid Date", whose `getTime()` is `NaN`) is
`Timestamp.invalid`.  Wherever the JS code compares against `NaN`, the
comparison is `false`, and the embedding spells that branch out explicitly.
-/

set_option maxRecDepth 8000

namespace CaratBridge

/-- JS truthiness of an optional string: `undefined` and `""` are falsy. -/
def jsTruthyStr : Option String → Bool
  | some s => !(s == "")
  | none => false

/-- JS `a || b` for an optional string `a` (empty string is falsy). -/
def jsOrStr (a : Option String) (b : String) : String :=
  match a with
  | some s => if s == "" then b else s
  | none => b

/-- JS `a || b` for an optional number `a` (`0` is falsy, as in `limit || 20`). -/
def jsOrNat (a : Option Nat) (b : Nat) : Nat :=
  match a with
  | some n => if n == 0 then b else n
  | none => b

/-- A post's timestamp as seen by `new Date(item.timestamp).getTime()`:
`missing` = field absent/empty (falsy string), `invalid` = present but
unparseable (`getTime()` is `NaN`), `ms t` = parsed epoch milliseconds. -/
inductive Timestamp where
  | missing
  | invalid
  | ms (t : Int)
deriving DecidableEq

/-- Embedding of `getTimeAgo` (route.ts lines 10-22).  `now` is the current
instant in epoch milliseconds.  JS `Math.floor` of a real quotient is floor
division, i.e. `Int.fdiv`.  On an unparseable date every `NaN` comparison is
false, so the code falls through to the day branch and interpolates `NaN`. -/
def getTimeAgo (now : Int) (ts : Timestamp) : String :=
  match ts with
  | .missing => "Unknown"
  | .invalid => "NaNd ago"
  | .ms t =>
    let diffMs := now - t
    let diffMins := Int.fdiv diffMs 60000
    let diffHours := Int.fdiv diffMins 60
    let diffDays := Int.fdiv diffHours 24
    if diffMins < 60 then toString diffMins ++ "m ago"
    else if diffHours < 24 then toString diffHours ++ "h ago"
    else toString diffDays ++ "d ago"

theorem getTimeAgo_ms (now t : Int) :
    getTimeAgo now (.ms t) =
      (if (now - t) / 60000 < 60 then toString ((now - t) / 60000) ++ "m ago"
       else if (now - t) / 3600000 < 24 then toString ((now - t) / 3600000) ++ "h ago"
       else toString ((now - t) / 86400000) ++ "d ago") := by
  have h60000 : Int.fdiv (now - t) 60000 = (now - t) / 60000 :=
    Int.fdiv_eq_ediv _ (by norm_num)
  have hmins : (now - t) / 60000 / 60 = (now - t) / 3600000 := by omega
  have hhours : (now - t) / 3600000 / 24 = (now - t) / 86400000 := by omega
  have h60 : Int.fdiv ((now - t) / 60000) 60 = (now - t) / 3600000 := by
    rw [Int.fdiv_eq_ediv _ (by norm_num : (0:Int) ≤ 60), hmins]
  have h24 : Int.fdiv ((now - t) / 3600000) 24 = (now - t) / 86400000 := by
    rw [Int.fdiv_eq_ediv _ (by norm_num : (0:Int) ≤ 24), hhours]
  show (if Int.fdiv (now - t) 60000 < 60
          then toString (Int.fdiv (now - t) 60000) ++ "m ago"
        else if Int.fdiv (Int.fdiv (now - t) 60000) 60 < 24
          then toString (Int.fdiv (Int.fdiv (now - t) 60000) 60) ++ "h ago"
        else toString (Int.fdiv (Int.fdiv (Int.fdiv (now - t) 60000) 60) 24) ++ "d ago") = _
  rw [h60000, h60]
  rw [show Int.fdiv ((now - t) / 3600000) 24 = (now - t) / 86400000 from h24]

/-! ## Auth gate (src/middleware.ts) -/

/-- The three observable outcomes of the middleware: pass the request on,
redirect to `/` (home), or redirect to `/login`. -/
inductive AuthDecision where
  | next
  | redirectHome
  | redirectLogin
deriving DecidableEq

/-- Embedding of `middleware` (middleware.ts lines 7-39).  `verified` is the
outcome of `jwtVerify` on the session cookie (false when the cookie is
absent, malformed, or fails signature verification). -/
def middleware (verified : Bool) (path : String) : AuthDecision :=
  if path == "/login" && verified then .redirectHome
  else if !(path == "/login") && !verified then
    if path.contains '.' then .next
    else if path.startsWith "/api/" then .next
    else .redirectLogin
  else .next

/-- The auth-gate outcome table exactly as claim C2 words it, clause by
clause (to be compared with `middleware`). -/
def authGateSpec (verified : Bool) (path : String) : AuthDecision :=
  if verified && path == "/login" then .redirectHome
  else if !verified && !(path == "/login") && path.contains '.' then .next
  else if !verified && path.startsWith "/api/" then .next
  else if !verified && !(path == "/login") then .redirectLogin
  else .next

/-- C2: the Auth Gate is a pure function of (token validity, requested path):
a verified request to `/login` redirects home; an unverified request to a
non-login path containing a dot is allowed through; an unverified request to
a path under `/api/` is allowed through; an unverified request to any other
non-login path redirects to `/login`; every other case is allowed through. -/
theorem c2_auth_gate_matches_spec :
    ∀ (verified : Bool) (path : String),
      middleware verified path = authGateSpec verified path := by
  intro v p
  cases v <;> cases hL : (p == "/login") <;> cases hD : p.contains '.' <;>
      cases hS : p.startsWith "/api/" <;>
    simp [middleware, authGateSpec, hL, hD, hS]

/-! ## C9: the age-label function -/

/-- C9 counterexample: the code does not clamp a negative elapsed time.  For a
timestamp 300000 ms (5 minutes) in the future, `getTimeAgo` returns
`"-5m ago"`, not the `"0m ago"` the claim's clamped-to-zero reading
prescribes. -/
theorem c9_counterexample_future_timestamp :
    getTimeAgo 0 (.ms 300000) = "-5m ago" ∧ getTimeAgo 0 (.ms 300000) ≠ "0m ago" := by
  constructor
  · rfl
  · decide

/-- C9 (amended): `getTimeAgo` returns `"{m}m ago"` when elapsed time is under
60 minutes, `"{h}h ago"` when under 24 hours, `"{d}d ago"` otherwise, and
`"Unknown"` when the timestamp is absent — where elapsed time is the current
instant minus the timestamp WITHOUT clamping: a future timestamp falls into
the minute bucket with a negative minute count (not age zero). -/
theorem c9_age_label_buckets :
    (∀ now : Int, getTimeAgo now .missing = "Unknown") ∧
    (∀ now t : Int, 0 ≤ now - t → now - t < 3600000 →
      getTimeAgo now (.ms t) = toString ((now - t) / 60000) ++ "m ago") ∧
    (∀ now t : Int, 3600000 ≤ now - t → now - t < 86400000 →
      getTimeAgo now (.ms t) = toString ((now - t) / 3600000) ++ "h ago") ∧
    (∀ now t : Int, 86400000 ≤ now - t →
      getTimeAgo now (.ms t) = toString ((now - t) / 86400000) ++ "d ago") ∧
    (∀ now t : Int, now - t < 0 →
      getTimeAgo now (.ms t) = toString ((now - t) / 60000) ++ "m ago" ∧
        (now - t) / 60000 < 0) := by
  refine ⟨fun _ => rfl, ?_, ?_, ?_, ?_⟩
  · intro now t h0 h1
    rw [getTimeAgo_ms, if_pos (by omega)]
  · intro now t h0 h1
    rw [getTimeAgo_ms, if_neg (by omega), if_pos (by omega)]
  · intro now t h0
    rw [getTimeAgo_ms, if_neg (by omega), if_neg (by omega)]
  · intro now t h0
    exact ⟨by rw [getTimeAgo_ms, if_pos (by omega)], by omega⟩

/-- Witness for `c9_age_label_buckets` at concrete instants: 5 minutes,
2 hours, 2 days, and 5 minutes into the future. -/
theorem c9_age_label_buckets_witness :
    getTimeAgo 0 .missing = "Unknown" ∧
    getTimeAgo 300000 (.ms 0) = "5m ago" ∧
    getTimeAgo 7200000 (.ms 0) = "2h ago" ∧
    getTimeAgo 172800000 (.ms 0) = "2d ago" ∧
    getTimeAgo 0 (.ms 300000) = "-5m ago" :=
  ⟨c9_age_label_buckets.1 0,
   (c9_age_label_buckets.2.1 300000 0 (by norm_num) (by norm_num)).trans (by rfl),
   (c9_age_label_buckets.2.2.1 7200000 0 (by norm_num) (by norm_num)).trans (by rfl),
   (c9_age_label_buckets.2.2.2.1 172800000 0 (by norm_num)).trans (by rfl),
   ((c9_age_label_buckets.2.2.2.2 0 300000 (by norm_num)).1).trans (by rfl)⟩

/-! ## Lead extraction (the per-item arrow function of the scan loop) -/

/-- A raw post item as consumed by the scan loop: only the fields the code
reads (`item.id`, `item.timestamp`, `item.ownerUsername`,
`item.owner?.username`, `item.caption`); everything else is opaque. -/
structure Item where
  id : String
  timestamp : Timestamp
  ownerUsername : Option String
  ownerDotUsername : Option String
  caption : Option String
deriving DecidableEq

/-- The lead record literal built in route.ts lines 117-133. -/
structure Lead where
  id : String
  companyName : String
  website : String
  country : String
  region : String
  businessType : String
  contactName : String
  contactRole : String
  rawEmail : Option String
  predictedEmail : Option String
  domain : String
  emailVerificationStatus : String
  score : Nat
  postAge : String
  notes : String
deriving DecidableEq

/-- The character class `[a-zA-Z0-9._-]` of the email regex in route.ts line
114 (the `i` flag is redundant: the class already has both cases). -/
def isEmailChar (c : Char) : Bool :=
  ('a' ≤ c && c ≤ 'z') || ('A' ≤ c && c ≤ 'Z') || ('0' ≤ c && c ≤ '9') ||
    c == '.' || c == '_' || c == '-'

/-- Length of the maximal prefix of `l` of email-class characters. -/
def emailRunLen : List Char → Nat
  | [] => 0
  | c :: cs => if isEmailChar c then emailRunLen cs + 1 else 0

/-- Given the maximal class-character run following the `@`, whether the
mandatory `\.` of `[a-zA-Z0-9._-]+\.[a-zA-Z0-9._-]+` can be placed: the run
must contain a dot with at least one run character before it and one after
it.  (The greedy engine backtracks the middle `+` from the right; the match,
when it exists, always extends to the end of the run, so only existence of
such a dot matters for the matched text.) -/
def hasInnerDot (run : List Char) : Bool :=
  match run with
  | [] => false
  | _ :: tail => (tail.dropLast).contains '.'

/-- One anchored attempt of the regex
`([a-zA-Z0-9._-]+@[a-zA-Z0-9._-]+\.[a-zA-Z0-9._-]+)` at the head of `l`.
Since `@` is not in the class, the leading `+` must consume its entire
maximal run and the next character must be `@`; the part after `@` matches
iff its maximal run admits an inner dot, and then the match extends to the
end of that run. -/
def matchEmailAt (l : List Char) : Option (List Char) :=
  let a := emailRunLen l
  if a == 0 then none
  else
    match l.drop a with
    | '@' :: rest =>
      let b := emailRunLen rest
      if hasInnerDot (rest.take b) then some (l.take (a + 1 + b)) else none
    | _ => none

/-- Leftmost-first search: JS tries each start position in order. -/
def firstEmailMatchAux : List Char → Option (List Char)
  | [] => none
  | c :: tl =>
    match matchEmailAt (c :: tl) with
    | some m => some m
    | none => firstEmailMatchAux tl

/-- `caption.match(/([a-zA-Z0-9._-]+@[a-zA-Z0-9._-]+\.[a-zA-Z0-9._-]+)/gi)`
followed by `[0]`: the first match of the email regex in the caption. -/
def firstEmailMatch (s : String) : Option String :=
  (firstEmailMatchAux s.toList).map (fun cs => String.mk cs)

/-- `item.ownerUsername || item.owner?.username || "Unknown"`. -/
def itemUsername (item : Item) : String :=
  jsOrStr item.ownerUsername (jsOrStr item.ownerDotUsername "Unknown")

/-- `item.caption || ""`. -/
def itemCaption (item : Item) : String :=
  jsOrStr item.caption ""

/-- The freshness rejection test `diffHours > w` of route.ts line 110, with
`diffHours = (now - created) / 3600000` compared exactly (no float error at
these magnitudes): `diffHours > w ↔ now - t > w * 3600000`.  When the
timestamp is missing or unparseable, `getTime()` is `NaN`, `diffHours` is
`NaN`, and `NaN > w` is false in JS — so such an item is NOT rejected. -/
def jsStale (now w : Int) (ts : Timestamp) : Bool :=
  match ts with
  | .ms t => decide (now - t > w * 3600000)
  | _ => false

/-- Embedding of the per-item arrow function of `items.map` in route.ts
lines 103-133 (freshness window `w` hours; route.ts uses 26). -/
def extract (now w : Int) (tag : String) (item : Item) : Option Lead :=
  if jsStale now w item.timestamp then none
  else
    some {
      id := "post-" ++ item.id
      companyName := itemUsername item
      website := "https://instagram.com/" ++ itemUsername item
      country := "Global"
      region := "Instagram"
      businessType := "#" ++ tag
      contactName := itemUsername item
      contactRole := "Owner"
      rawEmail := firstEmailMatch (itemCaption item)
      predictedEmail := none
      domain := "instagram.com"
      emailVerificationStatus :=
        if (firstEmailMatch (itemCaption item)).isSome then "valid" else "unknown"
      score := 90
      postAge := getTimeAgo now item.timestamp
      notes := "[" ++ getTimeAgo now item.timestamp ++ "] \"" ++
        (itemCaption item).take 50 ++ "...\"" }

/-- An item whose timestamp field is absent — the failing input of C1. -/
def itemNoTimestamp : Item :=
  { id := "42", timestamp := .missing, ownerUsername := some "shopowner",
    ownerDotUsername := none, caption := some "hello world" }

/-- An item exactly 26 hours old at instant 0 (the inclusive boundary). -/
def itemAtBoundary : Item :=
  { itemNoTimestamp with id := "43", timestamp := .ms (-93600000) }

/-- An item one millisecond past the 26-hour window at instant 0. -/
def itemJustStale : Item :=
  { itemNoTimestamp with id := "44", timestamp := .ms (-93600001) }

/-- C1 (code bug): the filter-and-extract step does NOT reject an item with a
missing timestamp — `NaN > 26` is false, so the item slips through the
freshness filter and a lead is produced, where the claim (and the spec's
explicit design choice) demands rejection.  The boundary behaviour for
parsable timestamps is as claimed: elapsed equal to the window passes,
strictly greater is dropped. -/
theorem c1_missing_timestamp_not_rejected :
    (extract 0 26 "weddingrings" itemNoTimestamp).isSome = true ∧
    (extract 0 26 "weddingrings" itemAtBoundary).isSome = true ∧
    (extract 0 26 "weddingrings" itemJustStale).isSome = false :=
  ⟨rfl, rfl, rfl⟩

/-- C8: for every extracted lead, `rawEmail` is the first regex match of an
email-shaped token in the caption (and `emailVerificationStatus` is then
`"valid"`); with no match, `rawEmail` stays unset and the status is
`"unknown"`.  The closed conjuncts check the spec's scenario: the email
embedded in `"DM us or email contact@shop.com!"` is extracted verbatim, and
a caption with no such token yields no match. -/
theorem c8_email_extraction :
    (∀ (now w : Int) (tag : String) (item : Item) (lead : Lead),
        extract now w tag item = some lead →
        lead.rawEmail = firstEmailMatch (itemCaption item) ∧
        lead.emailVerificationStatus =
          (if (firstEmailMatch (itemCaption item)).isSome then "valid" else "unknown")) ∧
    firstEmailMatch "DM us or email contact@shop.com!" = some "contact@shop.com" ∧
    firstEmailMatch "DM us for details, no mail here" = none := by
  refine ⟨?_, by rfl, by rfl⟩
  intro now w tag item lead h
  rw [extract] at h
  split at h
  · exact absurd h (by simp)
  · simp only [Option.some.injEq] at h
    subst h
    exact ⟨rfl, rfl⟩

/-- A concrete item carrying the spec scenario's caption. -/
def itemWithEmail : Item :=
  { id := "7", timestamp := .ms 0, ownerUsername := some "shop",
    ownerDotUsername := none, caption := some "DM us or email contact@shop.com!" }

/-- The lead `extract` produces from `itemWithEmail` at instant 0. -/
def leadWithEmail : Lead :=
  { id := "post-7", companyName := "shop", website := "https://instagram.com/shop",
    country := "Global", region := "Instagram", businessType := "#rings",
    contactName := "shop", contactRole := "Owner",
    rawEmail := some "contact@shop.com", predictedEmail := none,
    domain := "instagram.com", emailVerificationStatus := "valid", score := 90,
    postAge := "0m ago",
    notes := "[0m ago] \"DM us or email contact@shop.com!...\"" }

/-- Witness for `c8_email_extraction` at the spec scenario's caption. -/
theorem c8_email_extraction_witness :
    leadWithEmail.rawEmail = firstEmailMatch (itemCaption itemWithEmail) ∧
    leadWithEmail.emailVerificationStatus =
      (if (firstEmailMatch (itemCaption itemWithEmail)).isSome then "valid" else "unknown") :=
  c8_email_extraction.1 0 26 "rings" itemWithEmail leadWithEmail (by rfl)

/-! ## The lead store (`@/lib/db` — not under src/, modelled from the spec) -/

/-- The persisted store document (spec sections 3 and 4.3). -/
structure Db where
  leads : List Lead
  monitoredTags : List String
  isRunning : Bool
deriving DecidableEq

/-- Modelled from the spec: `addLeadsToDb` of `@/lib/db` (the module is not
under src/; only its callers are).  Spec 4.3: for each candidate, insert iff
its `id` is not already present; return exactly the newly inserted subset in
input order; the state after the batch is returned alongside. -/
def addLeadsToDb : Db → List Lead → List Lead × Db
  | db, [] => ([], db)
  | db, c :: cs =>
    if db.leads.any (fun l => l.id == c.id) then addLeadsToDb db cs
    else
      let r := addLeadsToDb { db with leads := db.leads ++ [c] } cs
      (c :: r.1, r.2)

/-- Modelled from the spec: `addTag` of `@/lib/db` — insert iff absent. -/
def addTag (db : Db) (t : String) : Db :=
  if db.monitoredTags.contains t then db
  else { db with monitoredTags := db.monitoredTags ++ [t] }

/-- Modelled from the spec: `removeTag` of `@/lib/db` — remove if present. -/
def removeTag (db : Db) (t : String) : Db :=
  { db with monitoredTags := db.monitoredTags.filter (fun x => !(x == t)) }

/-- Modelled from the spec: `setRunningStatus` of `@/lib/db`. -/
def setRunningStatus (db : Db) (b : Bool) : Db :=
  { db with isRunning := b }

/-- The configuration read by `getApiKeys()` (`@/lib/config`, not under
src/): the external post-source credential and the optional webhook URL. -/
structure Config where
  apifyToken : Option String
  discordWebhook : Option String
deriving DecidableEq

/-- The JSON response shapes the POST handler can produce. -/
inductive Response where
  | success (message : Option String)
  | failure (message : String)
  | scanResult (newLeads : Nat)
  | doc (db : Db)
  | jsonError (msg : String)
deriving DecidableEq

/-- Whether a response is of the `{success:false, message}` shape. -/
def isSuccessFalse : Response → Bool
  | .failure _ => true
  | _ => false

/-! ## The scan orchestrator (route.ts, `action === "scan"`) -/

/-- The comparator `new Date(b.timestamp) - new Date(a.timestamp)` of
route.ts line 100 is negative exactly when `a` is strictly newer.  When
either timestamp is missing/unparseable the comparator is `NaN`, which the
ES sort coerces to `+0` (treated equal); the engine's order among such
items is implementation-defined, so this embedding keeps them in place (no
claim depends on the resulting order). -/
def strictlyNewer (a b : Item) : Bool :=
  match a.timestamp, b.timestamp with
  | .ms x, .ms y => decide (y < x)
  | _, _ => false

/-- Stable insertion for the newest-first sort: walk past strictly newer
elements, insert before the first element that is not strictly newer. -/
def insertByNewest (a : Item) : List Item → List Item
  | [] => [a]
  | h :: t => if strictlyNewer h a then h :: insertByNewest a t else a :: h :: t

/-- `items.sort((a, b) => new Date(b.timestamp) - new Date(a.timestamp))`
as a stable insertion sort. -/
def sortNewestFirst (items : List Item) : List Item :=
  items.foldr insertByNewest []

/-- Per-tag body of the scan loop (route.ts lines 88-147): call the actor
and list its items (the oracle `fetch`; `.error e` models an exception
thrown anywhere in the fetch), sort newest first, filter/extract with
window `w`, dedup into the store.  On an exception the `catch` only logs,
so the tag contributes zero and leaves the store untouched. -/
def processTag (fetch : String → Nat → Except String (List Item)) (now : Int)
    (scanLimit : Nat) (w : Int) (tag : String) (db : Db) : Nat × Db :=
  match fetch tag scanLimit with
  | .error _ => (0, db)
  | .ok items =>
    if items.length > 0 then
      let leads := (sortNewestFirst items).filterMap (extract now w tag)
      let r := addLeadsToDb db leads
      (r.1.length, r.2)
    else (0, db)

/-- The `for (const monitoredTag of ...)` loop, accumulating
`totalNewLeads` and threading the store state. -/
def scanLoop (fetch : String → Nat → Except String (List Item)) (now : Int)
    (scanLimit : Nat) (w : Int) : List String → Db → Nat × Db
  | [], db => (0, db)
  | t :: ts, db =>
    let p := processTag fetch now scanLimit w t db
    let r := scanLoop fetch now scanLimit w ts p.2
    (p.1 + r.1, r.2)

/-- The list of per-tag new-lead counts, in tag order, each computed from
the store state left behind by the earlier tags. -/
def tagContribs (fetch : String → Nat → Except String (List Item)) (now : Int)
    (scanLimit : Nat) (w : Int) : List String → Db → List Nat
  | [], _ => []
  | t :: ts, db =>
    let p := processTag fetch now scanLimit w t db
    p.1 :: tagContribs fetch now scanLimit w ts p.2

/-- The `action === "scan"` branch of route.ts lines 73-150: credential
check, pause gate (`!db.isRunning && !force`), limit default
(`limit || (force ? 50 : 20)`), then the per-tag loop over the store's
monitoredTags with window 26. -/
def scanAction (cfg : Config) (fetch : String → Nat → Except String (List Item))
    (now : Int) (force : Bool) (limit : Option Nat) (db : Db) : Response × Db :=
  if !(jsTruthyStr cfg.apifyToken) then (.jsonError "Missing APIFY_TOKEN", db)
  else if !db.isRunning && !force then (.failure "Paused", db)
  else
    let r := scanLoop fetch now (jsOrNat limit (if force then 50 else 20)) 26
      db.monitoredTags db
    (.scanResult r.1, r.2)

/-- The parsed JSON body `{action, tag?, force?, limit?}`; `force` is the JS
truthiness of `body.force` (absent means falsy). -/
structure Req where
  action : String
  tag : Option String
  force : Bool
  limit : Option Nat

/-- The POST handler's action dispatch (route.ts lines 60-156), with the
store state passed in and returned explicitly (`getDb`/`saveDb`). -/
def handlePost (cfg : Config) (fetch : String → Nat → Except String (List Item))
    (now : Int) (req : Req) (db : Db) : Response × Db :=
  if req.action == "start" then (.success (some "Started"), setRunningStatus db true)
  else if req.action == "stop" then (.success (some "Stopped"), setRunningStatus db false)
  else if req.action == "add" && jsTruthyStr req.tag then
    (.success none, addTag db (req.tag.getD ""))
  else if req.action == "remove" && jsTruthyStr req.tag then
    (.success none, removeTag db (req.tag.getD ""))
  else if req.action == "load" then (.doc db, db)
  else if req.action == "scan" then scanAction cfg fetch now req.force req.limit db
  else (.jsonError "Invalid Action", db)

/-- A fetch oracle that always returns an empty item list. -/
def emptyFetch : String → Nat → Except String (List Item) := fun _ _ => .ok []

/-- The default store document (spec 4.3 `load()` default). -/
def emptyDb : Db := { leads := [], monitoredTags := [], isRunning := false }

/-! ## C3: the pause gate -/

/-- C3 counterexample: with the store paused and `force` false but the
external credential missing, the scan branch returns
`{error:"Missing APIFY_TOKEN"}` — not the `{success:false}` response the
claim promises unconditionally (the credential check precedes the pause
gate). -/
theorem c3_counterexample_missing_token :
    (scanAction { apifyToken := none, discordWebhook := none } emptyFetch 0 false none
        emptyDb).1 = .jsonError "Missing APIFY_TOKEN" ∧
    isSuccessFalse
      (scanAction { apifyToken := none, discordWebhook := none } emptyFetch 0 false none
        emptyDb).1 = false :=
  ⟨rfl, rfl⟩

/-- C3 (amended): provided the external credential is present, if the
store's `isRunning` is false and `force` is absent/false, the scan returns
`{success:false, message:"Paused"}`, leaves the store untouched, and the
result does not depend on the external post source (so no call to it is
observable); when the credential is missing the scan instead returns the
missing-credential error, still without contact or mutation. -/
theorem c3_paused_gate :
    ∀ (cfg : Config) (fetch fetch' : String → Nat → Except String (List Item))
      (now : Int) (limit : Option Nat) (db : Db),
      jsTruthyStr cfg.apifyToken = true → db.isRunning = false →
      scanAction cfg fetch now false limit db = (.failure "Paused", db) ∧
      scanAction cfg fetch now false limit db = scanAction cfg fetch' now false limit db := by
  intro cfg fetch fetch' now limit db htok hrun
  constructor <;> simp [scanAction, htok, hrun]

/-- Witness for `c3_paused_gate`: a present token and a paused store. -/
theorem c3_paused_gate_witness :
    scanAction { apifyToken := some "tok", discordWebhook := none } emptyFetch 0 false none
        emptyDb = (.failure "Paused", emptyDb) :=
  (c3_paused_gate { apifyToken := some "tok", discordWebhook := none } emptyFetch emptyFetch
    0 none emptyDb rfl rfl).1

/-! ## C6: missing credential fails fast -/

/-- C6: a missing (or empty) external credential fails the scan fast: the
error response is produced with the store unchanged, and the result does not
depend on the external post source at all — no tag is iterated, no call
made. -/
theorem c6_missing_token_fails_fast :
    ∀ (cfg : Config) (fetch fetch' : String → Nat → Except String (List Item))
      (now : Int) (force : Bool) (limit : Option Nat) (db : Db),
      jsTruthyStr cfg.apifyToken = false →
      scanAction cfg fetch now force limit db = (.jsonError "Missing APIFY_TOKEN", db) ∧
      scanAction cfg fetch now force limit db = scanAction cfg fetch' now force limit db := by
  intro cfg fetch fetch' now force limit db htok
  constructor <;> simp [scanAction, htok]

/-- Witness for `c6_missing_token_fails_fast`: running store, forced scan,
one monitored tag, no token. -/
theorem c6_missing_token_fails_fast_witness :
    scanAction { apifyToken := none, discordWebhook := none } emptyFetch 0 true none
        { leads := [], monitoredTags := ["rings"], isRunning := true }
      = (.jsonError "Missing APIFY_TOKEN",
         { leads := [], monitoredTags := ["rings"], isRunning := true }) :=
  (c6_missing_token_fails_fast { apifyToken := none, discordWebhook := none } emptyFetch
    emptyFetch 0 true none { leads := [], monitoredTags := ["rings"], isRunning := true }
    rfl).1

/-! ## C5: per-tag error isolation -/

/-- C5: an error on one tag is caught and isolated.  Conjuncts: (1) with the
credential present and the gate open, the scan returns `success:true` with
`newLeads` equal to the loop's total once the loop completes; (2) a failing
tag contributes zero leads and leaves the store untouched; (3) the loop's
total is the sum of the per-tag contributions; (4) a tag whose fetch throws
can be deleted from the tag list without changing the loop's outcome — the
remaining tags are processed exactly as if the failing tag were absent. -/
theorem c5_per_tag_isolation :
    (∀ (cfg : Config) (fetch : String → Nat → Except String (List Item))
        (now : Int) (force : Bool) (limit : Option Nat) (db : Db),
        jsTruthyStr cfg.apifyToken = true → (db.isRunning || force) = true →
        scanAction cfg fetch now force limit db =
          (.scanResult (scanLoop fetch now (jsOrNat limit (if force then 50 else 20)) 26
              db.monitoredTags db).1,
           (scanLoop fetch now (jsOrNat limit (if force then 50 else 20)) 26
              db.monitoredTags db).2)) ∧
    (∀ (fetch : String → Nat → Except String (List Item)) (now : Int)
        (scanLimit : Nat) (w : Int) (tag : String) (db : Db) (e : String),
        fetch tag scanLimit = .error e →
        processTag fetch now scanLimit w tag db = (0, db)) ∧
    (∀ (fetch : String → Nat → Except String (List Item)) (now : Int)
        (scanLimit : Nat) (w : Int) (tags : List String) (db : Db),
        (scanLoop fetch now scanLimit w tags db).1 =
          (tagContribs fetch now scanLimit w tags db).sum) ∧
    (∀ (fetch : String → Nat → Except String (List Item)) (now : Int)
        (scanLimit : Nat) (w : Int) (pre : List String) (tag : String)
        (post : List String) (db : Db) (e : String),
        fetch tag scanLimit = .error e →
        scanLoop fetch now scanLimit w (pre ++ tag :: post) db =
          scanLoop fetch now scanLimit w (pre ++ post) db) := by
  refine ⟨?_, ?_, ?_, ?_⟩
  · intro cfg fetch now force limit db htok hrun
    have hg : (!db.isRunning && !force) = false := by
      cases h1 : db.isRunning <;> cases h2 : force <;> simp_all
    simp [scanAction, htok, hg]
  · intro fetch now scanLimit w tag db e h
    simp [processTag, h]
  · intro fetch now scanLimit w tags db
    induction tags generalizing db with
    | nil => simp [scanLoop, tagContribs]
    | cons t ts ih => simp [scanLoop, tagContribs, ih]
  · intro fetch now scanLimit w pre tag post db e h
    induction pre generalizing db with
    | nil =>
      have hp : processTag fetch now scanLimit w tag db = (0, db) := by
        simp [processTag, h]
      simp [scanLoop, hp]
    | cons a as ih =>
      simp only [List.cons_append, scanLoop, List.append_eq]
      rw [ih]

/-- A fetch oracle that throws on the tag `"bad"` and returns no items
otherwise. -/
def failingFetch : String → Nat → Except String (List Item) :=
  fun t _ => if t == "bad" then .error "network down" else .ok []

/-- Witness for `c5_per_tag_isolation`: deleting the throwing tag `"bad"`
changes nothing, and a forced scan over an empty tag list reports success
with zero new leads. -/
theorem c5_per_tag_isolation_witness :
    scanLoop failingFetch 0 20 26 ["rings", "bad", "jewelry"] emptyDb =
      scanLoop failingFetch 0 20 26 ["rings", "jewelry"] emptyDb ∧
    scanAction { apifyToken := some "tok", discordWebhook := none } failingFetch 0 true none
        emptyDb = (.scanResult 0, emptyDb) :=
  ⟨c5_per_tag_isolation.2.2.2 failingFetch 0 20 26 ["rings"] "bad" ["jewelry"] emptyDb
    "network down" rfl,
   (c5_per_tag_isolation.1 { apifyToken := some "tok", discordWebhook := none } failingFetch
     0 true none emptyDb rfl rfl).trans (by rfl)⟩

/-! ## C10: add/remove with a missing or empty tag -/

/-- C10: an `add` or `remove` request whose `tag` is absent or empty
performs no store mutation and falls through to the generic
`{error:"Invalid Action"}` response. -/
theorem c10_add_remove_without_tag :
    ∀ (cfg : Config) (fetch : String → Nat → Except String (List Item)) (now : Int)
      (act : String) (tg : Option String) (force : Bool) (limit : Option Nat) (db : Db),
      (act = "add" ∨ act = "remove") → (tg = none ∨ tg = some "") →
      handlePost cfg fetch now { action := act, tag := tg, force := force, limit := limit } db
        = (.jsonError "Invalid Action", db) := by
  intro cfg fetch now act tg force limit db hact htg
  have htruthy : jsTruthyStr tg = false := by
    rcases htg with rfl | rfl <;> rfl
  rcases hact with rfl | rfl <;> simp [handlePost, htruthy]

/-- Witness for `c10_add_remove_without_tag`: an `add` with no tag. -/
theorem c10_add_remove_without_tag_witness :
    handlePost { apifyToken := none, discordWebhook := none } emptyFetch 0
        { action := "add", tag := none, force := false, limit := none } emptyDb
      = (.jsonError "Invalid Action", emptyDb) :=
  c10_add_remove_without_tag { apifyToken := none, discordWebhook := none } emptyFetch 0
    "add" none false none emptyDb (Or.inl rfl) (Or.inl rfl)

/-! ## C4: tag resolution in the env-override scan variant (part_001) -/

/-- JS `String.prototype.split(',')`: cut at every comma, keeping empty
pieces (the accumulator holds the current piece reversed). -/
def splitCommaAux : List Char → List Char → List (List Char)
  | acc, [] => [acc.reverse]
  | acc, c :: cs =>
    if c == ',' then acc.reverse :: splitCommaAux [] cs
    else splitCommaAux (c :: acc) cs

/-- JS `String.prototype.trim()`: strip leading and trailing whitespace
(ASCII whitespace suffices for the strings at hand). -/
def trimChars (l : List Char) : List Char :=
  ((l.dropWhile Char.isWhitespace).reverse.dropWhile Char.isWhitespace).reverse

/-- `raw.split(',').map(t => t.trim())` of part_001 line 76. -/
def jsSplitCommaTrim (s : String) : List String :=
  (splitCommaAux [] s.toList).map (fun cs => String.mk (trimChars cs))

/-- Embedding of the tag resolution of src/unnamed/part_001 lines 69-87:
the `WATCH_TAGS` override split on commas with entries trimmed when the
variable is truthy, else the store's monitoredTags when non-empty, else
`[]`. -/
def resolveTags (watchTags : Option String) (db : Db) : List String :=
  if jsTruthyStr watchTags then jsSplitCommaTrim (watchTags.getD "")
  else if db.monitoredTags.length > 0 then db.monitoredTags
  else []

/-- The tag source as claim C4 words it: the comma-separated override when
present (split on commas, entries trimmed), otherwise the store's
monitoredTags.  ("Present" is JS-truthy: an empty override string counts as
absent.) -/
def tagsPerClaim (watchTags : Option String) (db : Db) : List String :=
  match watchTags with
  | some s => if !(s == "") then jsSplitCommaTrim s else db.monitoredTags
  | none => db.monitoredTags

/-- The scan branch of src/unnamed/part_001 (lines 63-157): credential
check, env-override tag resolution, empty-check, limit default
(`limit || 20`), window 48; this variant has no pause gate. -/
def scanActionEnv (cfg : Config) (watchTags : Option String)
    (fetch : String → Nat → Except String (List Item)) (now : Int)
    (limit : Option Nat) (db : Db) : Response × Db :=
  if !(jsTruthyStr cfg.apifyToken) then (.jsonError "Missing APIFY_TOKEN", db)
  else if (resolveTags watchTags db).length == 0 then (.failure "No tags found.", db)
  else
    let r := scanLoop fetch now (jsOrNat limit 20) 48 (resolveTags watchTags db) db
    (.scanResult r.1, r.2)

/-- C4: the scan's tag list is the comma-separated override (split on
commas, entries trimmed) when present, otherwise the store's monitoredTags;
and when the resulting list is empty the scan returns a failure result
whose value does not depend on the external post source (no call made). -/
theorem c4_tag_resolution :
    (∀ (watchTags : Option String) (db : Db),
        resolveTags watchTags db = tagsPerClaim watchTags db) ∧
    (∀ (cfg : Config) (watchTags : Option String)
        (fetch fetch' : String → Nat → Except String (List Item))
        (now : Int) (limit : Option Nat) (db : Db),
        jsTruthyStr cfg.apifyToken = true → resolveTags watchTags db = [] →
        scanActionEnv cfg watchTags fetch now limit db = (.failure "No tags found.", db) ∧
        scanActionEnv cfg watchTags fetch now limit db
          = scanActionEnv cfg watchTags fetch' now limit db) := by
  constructor
  · intro wt db
    obtain ⟨l, tags, r⟩ := db
    match wt with
    | none => cases tags <;> simp [resolveTags, tagsPerClaim, jsTruthyStr]
    | some s =>
      by_cases hs : s = ""
      · subst hs; cases tags <;> simp [resolveTags, tagsPerClaim, jsTruthyStr]
      · simp [resolveTags, tagsPerClaim, jsTruthyStr, hs]
  · intro cfg wt fetch fetch' now limit db htok hempty
    constructor <;> simp [scanActionEnv, htok, hempty]

/-- Witness for `c4_tag_resolution`: a two-entry override with surrounding
whitespace, and an empty store with no override. -/
theorem c4_tag_resolution_witness :
    resolveTags (some "gold, jewelry") emptyDb = ["gold", "jewelry"] ∧
    scanActionEnv { apifyToken := some "tok", discordWebhook := none } none emptyFetch 0 none
        emptyDb = (.failure "No tags found.", emptyDb) :=
  ⟨(c4_tag_resolution.1 (some "gold, jewelry") emptyDb).trans (by decide),
   (c4_tag_resolution.2 { apifyToken := some "tok", discordWebhook := none } none emptyFetch
     emptyFetch 0 none emptyDb rfl rfl).1⟩

/-! ## C7: the notifier (`sendDiscordAlert`, route.ts lines 25-58) -/

/-- Observable events of one notifier run: a webhook POST for a lead (with
its delivery outcome) or the `await new Promise(r => setTimeout(r, 500))`
pause. -/
inductive NotifyEvent where
  | send (leadId : String) (delivered : Bool)
  | sleep (ms : Nat)
deriving DecidableEq

/-- The per-lead loop body: the `fetch` attempt and — only when it resolves —
the 500 ms pause.  The pause sits after the `fetch` INSIDE the `try`
(route.ts lines 33-55), so a rejected delivery skips it; the `catch` only
logs. -/
def sendOne (deliver : Lead → Bool) (l : Lead) : List NotifyEvent :=
  if deliver l then [.send l.id true, .sleep 500] else [.send l.id false]

/-- The `leads.slice(i, i + batchSize)` batching of route.ts lines 29-31:
consecutive chunks of at most 10 (fuel keeps the recursion structural; it is
called with fuel = length). -/
def chunksAux : Nat → List Lead → List (List Lead)
  | _, [] => []
  | 0, l => [l]
  | fuel + 1, a :: t => (a :: t).take 10 :: chunksAux fuel ((a :: t).drop 10)

/-- The batches the outer `for (let i = 0; ...; i += batchSize)` iterates. -/
def chunks10 (l : List Lead) : List (List Lead) := chunksAux l.length l

/-- Embedding of `sendDiscordAlert` as its event trace.  `deliver` is the
webhook oracle (`false` = the `fetch` rejects); `webhookTruthy` is the JS
truthiness of the url argument (the early return also fires on an empty
lead list). -/
def sendDiscordAlert (deliver : Lead → Bool) (webhookTruthy : Bool)
    (leads : List Lead) : List NotifyEvent :=
  if !webhookTruthy || leads.length == 0 then []
  else (chunks10 leads).flatMap (fun batch => batch.flatMap (sendOne deliver))

/-- A trace is paced when no two send events are adjacent (some pause
separates every pair of consecutive sends). -/
def pacedTrace : List NotifyEvent → Bool
  | .send _ _ :: .send _ _ :: _ => false
  | _ :: rest => pacedTrace rest
  | [] => true

/-- The lead id of a send event. -/
def sendEventId : NotifyEvent → Option String
  | .send i _ => some i
  | .sleep _ => none

theorem chunksAux_bind (f : Lead → List NotifyEvent) :
    ∀ (fuel : Nat) (l : List Lead), l.length ≤ fuel →
      (chunksAux fuel l).flatMap (fun b => b.flatMap f) = l.flatMap f := by
  intro fuel
  induction fuel with
  | zero =>
    intro l hl
    cases l with
    | nil => simp [chunksAux]
    | cons a t => simp at hl
  | succ n ih =>
    intro l hl
    cases l with
    | nil => simp [chunksAux]
    | cons a t =>
      simp only [chunksAux, List.flatMap_cons]
      rw [ih ((a :: t).drop 10) (by simp at hl ⊢; omega)]
      rw [← List.flatMap_append, List.take_append_drop]
      simp [List.flatMap_cons]

theorem pacedTrace_send_sleep (i : String) (d : Bool) (r : List NotifyEvent) :
    pacedTrace (.send i d :: .sleep 500 :: r) = pacedTrace r := rfl

theorem sendAlert_flat (deliver : Lead → Bool) (leads : List Lead) :
    sendDiscordAlert deliver true leads = leads.flatMap (sendOne deliver) := by
  cases leads with
  | nil => rfl
  | cons a t =>
    simp only [sendDiscordAlert, chunks10, Bool.not_true, Bool.false_or]
    rw [if_neg (by simp)]
    exact chunksAux_bind (sendOne deliver) (a :: t).length (a :: t) le_rfl

theorem pacedTrace_all_success (deliver : Lead → Bool) :
    ∀ leads : List Lead, (∀ l ∈ leads, deliver l = true) →
      pacedTrace (leads.flatMap (sendOne deliver)) = true := by
  intro leads
  induction leads with
  | nil => intro _; rfl
  | cons a t ih =>
    intro hall
    have hd : deliver a = true := hall a (by simp)
    simp only [List.flatMap_cons, sendOne, hd, if_true]
    exact (pacedTrace_send_sleep _ _ _).trans (ih fun l hl => hall l (by simp [hl]))

/-- Two minimal leads for the notifier scenarios. -/
def sampleLead (i : String) : Lead :=
  { id := i, companyName := "u", website := "https://instagram.com/u",
    country := "Global", region := "Instagram", businessType := "#t",
    contactName := "u", contactRole := "Owner", rawEmail := none,
    predictedEmail := none, domain := "instagram.com",
    emailVerificationStatus := "unknown", score := 90, postAge := "1m ago",
    notes := "" }

/-- A webhook that rejects the message for lead `"a"` and accepts others. -/
def flakyDeliver : Lead → Bool := fun l => !(l.id == "a")

/-- C7 counterexample: when delivery of the first message fails, the 500 ms
pause inside the `try` is skipped, so the second send immediately follows
the first — there is no delay between these two consecutive sends, against
the claim's unconditional pacing. -/
theorem c7_counterexample_failed_send_skips_delay :
    sendDiscordAlert flakyDeliver true [sampleLead "a", sampleLead "b"] =
      [.send "a" false, .send "b" true, .sleep 500] ∧
    pacedTrace (sendDiscordAlert flakyDeliver true [sampleLead "a", sampleLead "b"])
      = false :=
  ⟨rfl, rfl⟩

/-- C7 (amended): with a configured webhook the notifier issues exactly one
outbound message per lead, in list order (the batch-of-10 slicing collapses
to the flat per-lead sequence), and a delivery failure of one message is
caught and does not abort the subsequent messages; the 500 ms pause follows
each successful send, so consecutive sends are separated by the delay
whenever the earlier send succeeded — after a failed send the next send
follows without delay. -/
theorem c7_notifier :
    (∀ (deliver : Lead → Bool) (leads : List Lead),
        sendDiscordAlert deliver true leads = leads.flatMap (sendOne deliver)) ∧
    (∀ (deliver : Lead → Bool) (leads : List Lead),
        (sendDiscordAlert deliver true leads).filterMap sendEventId
          = leads.map (fun l => l.id)) ∧
    (∀ (deliver : Lead → Bool) (leads : List Lead),
        (∀ l ∈ leads, deliver l = true) →
        pacedTrace (sendDiscordAlert deliver true leads) = true) := by
  refine ⟨sendAlert_flat, ?_, ?_⟩
  · intro deliver leads
    rw [sendAlert_flat]
    induction leads with
    | nil => rfl
    | cons a t ih =>
      cases hd : deliver a <;>
        simp [List.flatMap_cons, List.filterMap_append, sendOne, sendEventId, hd, ih]
  · intro deliver leads hall
    rw [sendAlert_flat]
    exact pacedTrace_all_success deliver leads hall

/-- Witness for `c7_notifier`: two leads, both deliveries succeeding. -/
theorem c7_notifier_witness :
    sendDiscordAlert (fun _ => true) true [sampleLead "a", sampleLead "b"]
      = [.send "a" true, .sleep 500, .send "b" true, .sleep 500] ∧
    pacedTrace (sendDiscordAlert (fun _ => true) true [sampleLead "a", sampleLead "b"])
      = true :=
  ⟨(c7_notifier.1 (fun _ => true) [sampleLead "a", sampleLead "b"]).trans (by rfl),
   c7_notifier.2.2 (fun _ => true) [sampleLead "a", sampleLead "b"] (fun _ _ => rfl)⟩

end CaratBridge
